import Mathlib

/-!
Verification of the core of the Contextual News Data Retrieval System:
the geo bucketer (src/utils/geo.ts), the popularity aggregator (the
TrendingArticles materialized view of the database init script), the
ranking resolver (NewsRepository.findTrending), the query resolution
pipeline (NewsService.processNaturalLanguageQuery), the cache layer
(RedisCacheProvider) and the event recorder (NewsRepository.logEvent).
Timestamps, coordinates and scores are modelled as rationals, except where
the code applies the exponential function, which lives in the reals.
-/

/- ===================== Data model (schema tables) ===================== -/

/-- Row of the Article table: id is the primary key, relevance_score and the
coordinates are double precision columns, publication_date is a timestamp
(seconds). -/
structure Article where
  id : String
  title : String
  description : String
  url : String
  publication_date : ℚ
  source_name : String
  category : List String
  relevance_score : ℚ
  latitude : ℚ
  longitude : ℚ
deriving DecidableEq

/-- Row of the UserEvent table: eventType is the raw kind string (view or
click), createdAt a timestamp in seconds, articleId a reference into the
Article table. -/
structure UserEvent where
  id : String
  eventType : String
  createdAt : ℚ
  articleId : String
  userId : String
  latitude : ℚ
  longitude : ℚ
deriving DecidableEq

/- ===================== Geo bucketer (src/utils/geo.ts) ===================== -/

/-- Left-pads a digit string with zeros up to width w. -/
def leftPadZeros (s : String) (w : ℕ) : String :=
  String.mk (List.replicate (w - s.length) ('0')) ++ s

/-- Renders a nonnegative fixed-point value n (an integer count of 10^(-f)
units) as a decimal string with exactly f fraction digits, as the toFixed
rendering step does for a nonnegative number. -/
def renderFixed (n : ℕ) (f : ℕ) : String :=
  if f = 0 then Nat.repr n
  else Nat.repr (n / 10 ^ f) ++ "." ++ leftPadZeros (Nat.repr (n % 10 ^ f)) f

/-- The signed integer that toFixed selects for input x at f fraction
digits: the sign of a negative input is split off first and the magnitude is
fixed, choosing the integer n whose quotient n / 10^f is nearest to the
magnitude, with ties going to the larger n. -/
def toFixedInt (x : ℚ) (f : ℕ) : ℤ :=
  if x < 0 then -⌊(-x) * 10 ^ f + 1 / 2⌋ else ⌊x * 10 ^ f + 1 / 2⌋

/-- Number.prototype.toFixed of lat.toFixed(precision) in geo.ts, on ideal
(exactly represented) inputs: sign, then the magnitude rendered with f
fraction digits. -/
def toFixed (x : ℚ) (f : ℕ) : String :=
  if x < 0 then "-" ++ renderFixed (toFixedInt x f).natAbs f
  else renderFixed (toFixedInt x f).natAbs f

/-- getGeospatialCacheKey of src/utils/geo.ts: the string
latFixed ++ colon ++ lonFixed at the given precision, default 2. -/
def getGeospatialCacheKey (lat lon : ℚ) (precision : ℕ := 2) : String :=
  toFixed lat precision ++ ":" ++ toFixed lon precision

/-- Modelled from the spec wording only, for comparison with the code-side
toFixedInt: rounding half away from zero of a rational to an integer. -/
def roundHalfAwayFromZero (q : ℚ) : ℤ :=
  if 0 ≤ q then ⌊q + 1 / 2⌋ else -⌊-q + 1 / 2⌋

/- ============ Popularity aggregator (TrendingArticles view) ============ -/

/-- CASE WHEN eventType = click THEN 1.5 ELSE 1.0 END of the view query. -/
def eventWeight (e : UserEvent) : ℝ :=
  if e.eventType = "click" then 1.5 else 1.0

/-- The join condition createdAt > NOW() - INTERVAL 24 hours of the view
query, with now and createdAt in seconds. -/
def inWindow (now : ℚ) (e : UserEvent) : Bool :=
  decide (now - 86400 < e.createdAt)

/-- The UserEvent rows joined to a given article id by the LEFT JOIN of the
TrendingArticles view: events referencing the article and created within the
trailing 24 hours. -/
def articleEvents (now : ℚ) (evs : List UserEvent) (aid : String) : List UserEvent :=
  evs.filter (fun e => e.articleId == aid && inWindow now e)

/-- The trending_score column of the TrendingArticles view:
COALESCE(SUM(weight * EXP(-age_seconds / (3600 * 12))), 0) over the joined
events of the article; the empty sum is 0, matching COALESCE. -/
noncomputable def trendingScore (now : ℚ) (evs : List UserEvent) (aid : String) : ℝ :=
  ((articleEvents now evs aid).map
    (fun e => eventWeight e * Real.exp (-(((now - e.createdAt : ℚ) : ℝ)) / (3600 * 12)))).sum

/-- A row of the TrendingArticles materialized view: the article columns
plus its trending_score. -/
structure TrendingRow where
  article : Article
  trending_score : ℝ

/-- The TrendingArticles materialized view: SELECT a.*, trending_score FROM
Article a LEFT JOIN UserEvent (within 24 hours) GROUP BY a.id; with the
primary key making ids unique, this is one row per article. -/
noncomputable def TrendingArticles (now : ℚ) (arts : List Article) (evs : List UserEvent) :
    List TrendingRow :=
  arts.map (fun a => { article := a, trending_score := trendingScore now evs a.id })

/-- Modelled from the spec wording only, for comparison with the code-side
trendingScore: the sum, over the UserEvents of the article created within
the trailing 24 hours, of (1.5 for a click, 1.0 otherwise) multiplied by
the decay exp(-age_seconds / 43200). -/
noncomputable def specTrendingScore (now : ℚ) (evs : List UserEvent) (aid : String) : ℝ :=
  ((evs.filter (fun e => e.articleId == aid && decide (now - e.createdAt < 86400))).map
    (fun e => (if e.eventType = "click" then (1.5 : ℝ) else 1.0) *
      Real.exp (-(((now - e.createdAt : ℚ) : ℝ)) / 43200))).sum

/- ============ Ranking resolver (NewsRepository.findTrending) ============ -/

/-- The blended score of the findTrending ORDER BY clause:
trending_score * EXP(-ST_Distance(location, user point) / 50000). -/
noncomputable def blendedScore (trending_score distance_meters : ℝ) : ℝ :=
  trending_score * Real.exp (-distance_meters / 50000)

/- ============ Event recorder (NewsRepository.logEvent) ============ -/

/-- Database-side error raised by the INSERT of logEvent. -/
inductive DbError where
  | foreignKeyViolation
deriving DecidableEq

/-- NewsRepository.logEvent: the INSERT INTO UserEvent guarded by the
UserEvent_articleId_fkey foreign key of the schema; the insert succeeds and
appends the row exactly when the referenced article id exists, otherwise the
constraint rejects it and no row is created. -/
def logEvent (arts : List Article) (store : List UserEvent) (e : UserEvent) :
    Except DbError (List UserEvent) :=
  if arts.any (fun a => a.id == e.articleId) then Except.ok (store ++ [e])
  else Except.error DbError.foreignKeyViolation

/- ============ Query pipeline data (news.service.ts) ============ -/

/-- Article shape produced by NewsService.formatArticles: the same fields
projected for the API response. -/
structure FormattedArticle where
  id : String
  title : String
  description : String
  url : String
  publication_date : ℚ
  source_name : String
  category : List String
  relevance_score : ℚ
  latitude : ℚ
  longitude : ℚ
deriving DecidableEq

/-- NewsService.formatArticles applied to one article. -/
def formatArticle (a : Article) : FormattedArticle :=
  { id := a.id, title := a.title, description := a.description, url := a.url
    publication_date := a.publication_date, source_name := a.source_name
    category := a.category, relevance_score := a.relevance_score
    latitude := a.latitude, longitude := a.longitude }

/-- A formatted article together with the llm_summary field added by
NewsService.enrichArticlesWithSummaries. -/
structure EnrichedArticle extends FormattedArticle where
  llm_summary : String
deriving DecidableEq

/-- A value held by the cache: the pipeline stores enriched article lists
under query fingerprints and summary strings under summary keys. -/
inductive CVal where
  | arts : List EnrichedArticle → CVal
  | str : String → CVal
deriving DecidableEq

/-- State of the cache: entries of key, value and the TTL in seconds the
entry was stored with. -/
structure CacheState where
  entries : List (String × CVal × ℚ)
deriving DecidableEq

/-- Cache lookup: the value of the most recent entry for the key, or none
on a miss. -/
def cacheGet (c : CacheState) (k : String) : Option CVal :=
  (c.entries.find? (fun e => e.1 == k)).map (fun e => e.2.1)

/-- Cache write with a TTL: the new entry shadows any older one. -/
def cacheSet (c : CacheState) (k : String) (v : CVal) (ttl : ℚ) : CacheState :=
  ⟨(k, v, ttl) :: c.entries⟩

/-- A cached article list, as the get call of processNaturalLanguageQuery
reads the query fingerprint key; a miss or a value of another shape is none. -/
def cacheGetArts (c : CacheState) (k : String) : Option (List EnrichedArticle) :=
  match cacheGet c k with
  | some (CVal.arts l) => some l
  | _ => none

/-- A cached summary string, as the get call of enrichArticlesWithSummaries
reads the summary key; a miss or a value of another shape is none. -/
def cacheGetStr (c : CacheState) (k : String) : Option String :=
  match cacheGet c k with
  | some (CVal.str s) => some s
  | _ => none

/-- Structured output of the language-understanding analysis: intent list,
entity map and an optional keyword list (the pipeline reads
analysis.keywords with a fallback to the empty list when absent). -/
structure Analysis where
  intent : List String
  entities : List (String × String)
  keywords : Option (List String)

/-- The collaborators of the pipeline as it runs one request: the article
store, the full-text search index (its ranked result list per query), the
outcome of the language analysis per query, and the outcome of the raw
summarization call per text; an error value is a failed or timed-out call. -/
structure QueryEnv where
  db : List Article
  fts : String → List Article
  analyze : String → Except Unit Analysis
  summarize : String → Except Unit String

/-- GeminiProvider.summarizeText: on a failed summarization call the catch
block degrades to the fixed placeholder string. -/
def summarizeText (env : QueryEnv) (text : String) : String :=
  match env.summarize text with
  | Except.ok s => s
  | Except.error _ => "Summary not available."

/-- Case-insensitive substring match, the Prisma contains filter with
insensitive mode. -/
def containsCI (hay ndl : String) : Bool :=
  hay.toLower.containsSubstr ndl.toLower.toSubstring

/-- One article matches the flattened OR of the keyword conditions: some
keyword is a case-insensitive substring of the title or the description. -/
def matchesKeywords (kws : List String) (a : Article) : Bool :=
  kws.any (fun k => containsCI a.title k || containsCI a.description k)

/-- The keyword search step of processNaturalLanguageQuery:
prisma.article.findMany with the OR contains conditions, ordered by
relevance_score descending, take 5. -/
def kwSearch (db : List Article) (kws : List String) : List Article :=
  ((db.filter (matchesKeywords kws)).mergeSort
    (fun a b => decide (b.relevance_score ≤ a.relevance_score))).take 5

/-- NewsRepository.findBySearchQuery seen through the full-text index: the
ranked match list of the raw query with OFFSET (page - 1) * limit and
LIMIT limit. -/
def findBySearchQuery (env : QueryEnv) (q : String) (page limit : ℕ) : List Article :=
  ((env.fts q).drop ((page - 1) * limit)).take limit

/-- String a JS template literal renders for an optional number: undefined
prints as the fixed word. -/
def optNumStr : Option ℚ → String
  | none => "undefined"
  | some q => toString q

/-- The AI query fingerprint key of processNaturalLanguageQuery. -/
def queryCacheKey (query : String) (lat lon : Option ℚ) : String :=
  "query:final-v9:" ++ query ++ ":" ++ optNumStr lat ++ ":" ++ optNumStr lon

/-- One step of enrichArticlesWithSummaries: read the summary cache at
summary:id; a missing value or an empty string (falsy in the source) causes
a summarization call whose result is cached for 86400 seconds; the third
component counts summarization calls (0 or 1). -/
def enrichOne (env : QueryEnv) (c : CacheState) (fa : FormattedArticle) :
    EnrichedArticle × CacheState × ℕ :=
  match cacheGetStr c ("summary:" ++ fa.id) with
  | some s =>
    if s = "" then
      (⟨fa, summarizeText env fa.description⟩,
        cacheSet c ("summary:" ++ fa.id) (CVal.str (summarizeText env fa.description)) 86400, 1)
    else (⟨fa, s⟩, c, 0)
  | none =>
    (⟨fa, summarizeText env fa.description⟩,
      cacheSet c ("summary:" ++ fa.id) (CVal.str (summarizeText env fa.description)) 86400, 1)

/-- NewsService.enrichArticlesWithSummaries over the surviving articles,
threading the cache and counting summarization calls. -/
def enrichAll (env : QueryEnv) : List FormattedArticle → CacheState →
    List EnrichedArticle × CacheState × ℕ
  | [], c => ([], c, 0)
  | fa :: rest, c =>
    (((enrichOne env c fa).1 :: (enrichAll env rest (enrichOne env c fa).2.1).1),
      (enrichAll env rest (enrichOne env c fa).2.1).2.1,
      (enrichOne env c fa).2.2 + (enrichAll env rest (enrichOne env c fa).2.1).2.2)

/-- NewsService.processNaturalLanguageQuery: serve a cached fingerprint hit;
otherwise analyze the query (a failed analysis is fatal), run the keyword
search when keywords were extracted, fall back to the full-text search on
the raw query, return the empty list when both are empty, else enrich with
summaries and cache the enriched set for 3600 seconds. Result: the outcome,
the final cache state, and the number of summarization calls made. -/
def processNaturalLanguageQuery (env : QueryEnv) (c : CacheState) (query : String)
    (lat lon : Option ℚ) : Except Unit (List EnrichedArticle) × CacheState × ℕ :=
  match cacheGetArts c (queryCacheKey query lat lon) with
  | some l => (Except.ok l, c, 0)
  | none =>
    match env.analyze query with
    | Except.error e => (Except.error e, c, 0)
    | Except.ok analysis =>
      let keywords := analysis.keywords.getD []
      let articles1 := if keywords.length > 0 then kwSearch env.db keywords else []
      let articles2 := if articles1.length = 0 then findBySearchQuery env query 1 5 else articles1
      if articles2.length = 0 then (Except.ok [], c, 0)
      else
        (Except.ok (enrichAll env (articles2.map formatArticle) c).1,
          cacheSet (enrichAll env (articles2.map formatArticle) c).2.1
            (queryCacheKey query lat lon)
            (CVal.arts (enrichAll env (articles2.map formatArticle) c).1) 3600,
          (enrichAll env (articles2.map formatArticle) c).2.2)

/- ============ Cache layer (RedisCacheProvider) ============ -/

/-- RedisCacheProvider.get: the backing client call may fail; the catch
block turns any failure into a null result, a falsy (absent or empty) data
string is a miss, and a failed deserialization is likewise caught. The
Except result type records that an error could have been surfaced. -/
def redisProviderGet (client : String → Except Unit (Option String))
    (deserialize : String → Except Unit CVal) (key : String) :
    Except Unit (Option CVal) :=
  match client key with
  | Except.error _ => Except.ok none
  | Except.ok none => Except.ok none
  | Except.ok (some data) =>
    if data = "" then Except.ok none
    else
      match deserialize data with
      | Except.ok v => Except.ok (some v)
      | Except.error _ => Except.ok none

/-- RedisCacheProvider.set: the backing client call may fail; the catch
block swallows any failure and the method completes either way. -/
def redisProviderSet (clientSet : String → String → ℚ → Except Unit Unit)
    (serialize : CVal → String) (key : String) (value : CVal) (ttl : ℚ) :
    Except Unit Unit :=
  match clientSet key (serialize value) ttl with
  | Except.error _ => Except.ok ()
  | Except.ok _ => Except.ok ()

/- ===================== Concrete sample data ===================== -/

/-- A sample article row, used to instantiate proved statements. -/
def sampleArticle : Article :=
  ⟨"a1", "title", "descr", "url", 0, "src", [], 1, 0, 0⟩

/-- A click UserEvent on the sample article at a given timestamp. -/
def clickEventAt (t : ℚ) : UserEvent :=
  ⟨"e", "click", t, "a1", "u", 0, 0⟩

/-- Five click events on the sample article whose ages at time 86400 are 5,
10, 30, 60 and 120 minutes, the scenario of the seed script. -/
def fiveClickEvents : List UserEvent :=
  [clickEventAt 86100, clickEventAt 85800, clickEventAt 84600,
    clickEventAt 82800, clickEventAt 79200]

/-- Analysis outcome carrying no keyword list. -/
def emptyAnalysis : Analysis := ⟨[], [], none⟩

/-- Environment whose article store and full-text index are empty, whose
analysis succeeds with no keywords, and whose summarization calls fail. -/
def envEmpty : QueryEnv :=
  ⟨[], fun _ => [], fun _ => Except.ok emptyAnalysis, fun _ => Except.error ()⟩

/-- Environment whose summarization calls always fail, with one article. -/
def envFailSum : QueryEnv :=
  ⟨[sampleArticle], fun _ => [sampleArticle], fun _ => Except.ok emptyAnalysis,
    fun _ => Except.error ()⟩

/-- The empty cache. -/
def cache0 : CacheState := ⟨[]⟩

/-- The sample article as the pipeline formats it. -/
def sampleFA : FormattedArticle := formatArticle sampleArticle

/-- Well-formedness of a cache state for the pipeline invariant: every
cached article list holds at most 5 articles. -/
def cacheWF (c : CacheState) : Prop :=
  ∀ e ∈ c.entries, ∀ l, e.2.1 = CVal.arts l → l.length ≤ 5

/- ===================== Theorems ===================== -/

/-- C4: getGeospatialCacheKey is deterministic (identical inputs yield an
identical key), returns the string latFixed colon lonFixed at the given
precision, and the fixation selects exactly the integer given by rounding
the scaled coordinate half away from zero. -/
theorem c4_geo_key_deterministic_half_away_from_zero :
    ∀ (lat lon : ℚ) (p : ℕ),
      getGeospatialCacheKey lat lon p = getGeospatialCacheKey lat lon p
      ∧ getGeospatialCacheKey lat lon p = toFixed lat p ++ ":" ++ toFixed lon p
      ∧ (∀ x : ℚ, toFixedInt x p = roundHalfAwayFromZero (x * 10 ^ p)) := by
  intro lat lon p
  refine ⟨rfl, rfl, ?_⟩
  intro x
  have hp : (0 : ℚ) < 10 ^ p := by positivity
  unfold toFixedInt roundHalfAwayFromZero
  by_cases hx : x < 0
  · rw [if_pos hx, if_neg (not_le.mpr (mul_neg_of_neg_of_pos hx hp)), neg_mul]
  · rw [if_neg hx, if_pos (mul_nonneg (not_lt.mp hx) hp.le)]

/-- C2: the blended score of the ranking resolver is strictly decreasing in
distance for every fixed positive trending score, and monotonically
increasing in trending score for every fixed distance. -/
theorem c2_blended_score_monotone :
    (∀ t d1 d2 : ℝ, 0 < t → d1 < d2 → blendedScore t d2 < blendedScore t d1)
    ∧ (∀ t1 t2 d : ℝ, t1 ≤ t2 → blendedScore t1 d ≤ blendedScore t2 d) := by
  constructor
  · intro t d1 d2 ht hd
    unfold blendedScore
    have hexp : Real.exp (-d2 / 50000) < Real.exp (-d1 / 50000) :=
      Real.exp_lt_exp.mpr (by linarith)
    exact mul_lt_mul_of_pos_left hexp ht
  · intro t1 t2 d h
    unfold blendedScore
    exact mul_le_mul_of_nonneg_right h (Real.exp_pos _).le

/-- Witness for C2 at trending score 1 and distances 0 and 1, and at
distance 5 with trending scores 1 and 2. -/
theorem c2_blended_score_monotone_witness :
    (0 : ℝ) < 1 ∧ (0 : ℝ) < 1 ∧ (1 : ℝ) ≤ 2
    ∧ blendedScore 1 1 < blendedScore 1 0
    ∧ blendedScore 1 5 ≤ blendedScore 2 5 :=
  ⟨zero_lt_one, zero_lt_one, one_le_two,
    c2_blended_score_monotone.1 1 0 1 zero_lt_one zero_lt_one,
    c2_blended_score_monotone.2 1 2 5 one_le_two⟩

/-- C8: recording a UserEvent whose articleId references no existing article
is rejected with the foreign key error and produces no new event store. -/
theorem c8_log_event_rejects_unknown_article (arts : List Article)
    (store : List UserEvent) (e : UserEvent)
    (h : ∀ a ∈ arts, a.id ≠ e.articleId) :
    logEvent arts store e = Except.error DbError.foreignKeyViolation
    ∧ ∀ store2, logEvent arts store e ≠ Except.ok store2 := by
  have hany : arts.any (fun a => a.id == e.articleId) = false := by
    rw [List.any_eq_false]
    intro a ha
    simpa using h a ha
  constructor
  · simp [logEvent, hany]
  · intro store2
    simp [logEvent, hany]

/-- Witness for C8: an event logged against the empty article table. -/
theorem c8_log_event_rejects_unknown_article_witness :
    (∀ a ∈ ([] : List Article), a.id ≠ (clickEventAt 0).articleId)
    ∧ logEvent [] [] (clickEventAt 0) = Except.error DbError.foreignKeyViolation :=
  ⟨by simp,
    (c8_log_event_rejects_unknown_article [] [] (clickEventAt 0) (by simp)).1⟩

/-- C9: for every key, value and TTL, the cache provider surfaces no
failure of the backing store: get always completes with some result, a
failing backing get is answered with none (a miss), and set completes even
when the backing set fails. -/
theorem c9_cache_failures_become_misses :
    ∀ (client : String → Except Unit (Option String))
      (deserialize : String → Except Unit CVal)
      (clientSet : String → String → ℚ → Except Unit Unit)
      (serialize : CVal → String) (key : String) (value : CVal) (ttl : ℚ),
      (∃ r, redisProviderGet client deserialize key = Except.ok r)
      ∧ redisProviderSet clientSet serialize key value ttl = Except.ok ()
      ∧ (client key = Except.error () → redisProviderGet client deserialize key = Except.ok none) := by
  intro client deserialize clientSet serialize key value ttl
  refine ⟨?_, ?_, ?_⟩
  · cases h : client key with
    | error e => exact ⟨none, by simp [redisProviderGet, h]⟩
    | ok d =>
      cases d with
      | none => exact ⟨none, by simp [redisProviderGet, h]⟩
      | some s =>
        by_cases hs : s = ""
        · exact ⟨none, by simp [redisProviderGet, h, hs]⟩
        · cases hd : deserialize s with
          | error e => exact ⟨none, by simp [redisProviderGet, h, hs, hd]⟩
          | ok v => exact ⟨some v, by simp [redisProviderGet, h, hs, hd]⟩
  · cases h : clientSet key (serialize value) ttl with
    | error e => simp [redisProviderSet, h]
    | ok u => simp [redisProviderSet, h]
  · intro he
    simp [redisProviderGet, he]

/-- Witness for C9 at a backing store whose every operation fails. -/
theorem c9_cache_failures_become_misses_witness :
    ((fun _ : String => (Except.error () : Except Unit (Option String))) ("k") = Except.error ())
    ∧ redisProviderGet (fun _ => Except.error ()) (fun _ => Except.error ()) ("k") = Except.ok none
    ∧ redisProviderSet (fun _ _ _ => Except.error ()) (fun _ => ("")) ("k") (CVal.str ("v")) 60 = Except.ok () :=
  ⟨rfl,
    (c9_cache_failures_become_misses (fun _ => Except.error ()) (fun _ => Except.error ())
      (fun _ _ _ => Except.error ()) (fun _ => ("")) ("k") (CVal.str ("v")) 60).2.2 rfl,
    (c9_cache_failures_become_misses (fun _ => Except.error ()) (fun _ => Except.error ())
      (fun _ _ _ => Except.error ()) (fun _ => ("")) ("k") (CVal.str ("v")) 60).2.1⟩

/-- Reading a key right after writing a summary string to it yields that
string. -/
theorem cacheGetStr_cacheSet (c : CacheState) (k : String) (s : String) (t : ℚ) :
    cacheGetStr (cacheSet c k (CVal.str s) t) k = some s := by
  simp [cacheGetStr, cacheGet, cacheSet, List.find?]

/-- Writing a summary string preserves the article-list bound of the cache. -/
theorem cacheWF_cacheSet_str (c : CacheState) (k : String) (s : String) (t : ℚ)
    (h : cacheWF c) : cacheWF (cacheSet c k (CVal.str s) t) := by
  intro e he l hl
  rcases List.mem_cons.mp he with rfl | he2
  · cases hl
  · exact h e he2 l hl

/-- Writing an article list of at most 5 articles preserves the bound. -/
theorem cacheWF_cacheSet_arts (c : CacheState) (k : String) (l : List EnrichedArticle)
    (t : ℚ) (h : cacheWF c) (hl : l.length ≤ 5) :
    cacheWF (cacheSet c k (CVal.arts l) t) := by
  intro e he l2 hl2
  rcases List.mem_cons.mp he with rfl | he2
  · cases hl2
    exact hl
  · exact h e he2 l2 hl2

/-- A cached article list read from a well-formed cache holds at most 5
articles. -/
theorem cacheGetArts_le_five (c : CacheState) (k : String) (l : List EnrichedArticle)
    (hwf : cacheWF c) (hg : cacheGetArts c k = some l) : l.length ≤ 5 := by
  unfold cacheGetArts cacheGet at hg
  cases hf : c.entries.find? (fun e => e.1 == k) with
  | none => rw [hf] at hg; cases hg
  | some e =>
    rw [hf] at hg
    simp only [Option.map_some'] at hg
    have he : e ∈ c.entries := List.mem_of_find?_eq_some hf
    cases hv : e.2.1 with
    | arts l2 =>
      rw [hv] at hg
      simp only [Option.some.injEq] at hg
      subst hg
      exact hwf e he _ hv
    | str s => rw [hv] at hg; simp at hg

/-- One enrichment step preserves the cache bound. -/
theorem enrichOne_wf (env : QueryEnv) (c : CacheState) (fa : FormattedArticle)
    (h : cacheWF c) : cacheWF (enrichOne env c fa).2.1 := by
  unfold enrichOne
  cases cacheGetStr c ("summary:" ++ fa.id) with
  | none => exact cacheWF_cacheSet_str _ _ _ _ h
  | some s =>
    by_cases hs : s = ""
    · simp only [hs, if_pos rfl]
      exact cacheWF_cacheSet_str _ _ _ _ h
    · simp only [if_neg hs]
      exact h

/-- One enrichment step makes at most one summarization call. -/
theorem enrichOne_calls_le_one (env : QueryEnv) (c : CacheState) (fa : FormattedArticle) :
    (enrichOne env c fa).2.2 ≤ 1 := by
  unfold enrichOne
  cases cacheGetStr c ("summary:" ++ fa.id) with
  | none => exact le_refl 1
  | some s =>
    by_cases hs : s = ""
    · simp [hs]
    · simp only [if_neg hs]
      exact Nat.zero_le 1

/-- Enrichment returns one enriched article per input article. -/
theorem enrichAll_length (env : QueryEnv) (fas : List FormattedArticle) (c : CacheState) :
    (enrichAll env fas c).1.length = fas.length := by
  induction fas generalizing c with
  | nil => rfl
  | cons fa rest ih => simp [enrichAll, ih]

/-- Enrichment makes at most one summarization call per input article. -/
theorem enrichAll_calls_le (env : QueryEnv) (fas : List FormattedArticle) (c : CacheState) :
    (enrichAll env fas c).2.2 ≤ fas.length := by
  induction fas generalizing c with
  | nil => exact le_refl 0
  | cons fa rest ih =>
    simp only [enrichAll, List.length_cons]
    have h1 := enrichOne_calls_le_one env c fa
    have h2 := ih (enrichOne env c fa).2.1
    omega

/-- Enrichment preserves the cache bound: it writes only summary strings. -/
theorem enrichAll_wf (env : QueryEnv) (fas : List FormattedArticle) (c : CacheState)
    (h : cacheWF c) : cacheWF (enrichAll env fas c).2.1 := by
  induction fas generalizing c with
  | nil => exact h
  | cons fa rest ih =>
    simp only [enrichAll]
    exact ih (enrichOne env c fa).2.1 (enrichOne_wf env c fa h)

/-- The keyword search caps its result at 5 articles. -/
theorem kwSearch_length_le (db : List Article) (kws : List String) :
    (kwSearch db kws).length ≤ 5 := by
  unfold kwSearch
  simp [List.length_take]

/-- The full-text fallback caps its result at the limit. -/
theorem findBySearchQuery_length_le (env : QueryEnv) (q : String) (page limit : ℕ) :
    (findBySearchQuery env q page limit).length ≤ limit := by
  unfold findBySearchQuery
  simp [List.length_take]

/-- Result of processNaturalLanguageQuery when the fingerprint key is
cached: the cached list is served unchanged. -/
theorem pnlq_hit (env : QueryEnv) (c : CacheState) (query : String) (lat lon : Option ℚ)
    (l : List EnrichedArticle)
    (hm : cacheGetArts c (queryCacheKey query lat lon) = some l) :
    processNaturalLanguageQuery env c query lat lon = (Except.ok l, c, 0) := by
  unfold processNaturalLanguageQuery
  rw [hm]

/-- Result of processNaturalLanguageQuery when the analysis call fails: the
failure is surfaced and nothing is cached. -/
theorem pnlq_analyze_fail (env : QueryEnv) (c : CacheState) (query : String)
    (lat lon : Option ℚ)
    (hm : cacheGetArts c (queryCacheKey query lat lon) = none)
    (ha : env.analyze query = Except.error ()) :
    processNaturalLanguageQuery env c query lat lon = (Except.error (), c, 0) := by
  unfold processNaturalLanguageQuery
  rw [hm, ha]

/-- Result of processNaturalLanguageQuery on a cache miss with a successful
analysis, with the search and enrichment steps laid out. -/
theorem pnlq_resolved (env : QueryEnv) (c : CacheState) (query : String)
    (lat lon : Option ℚ) (A : Analysis)
    (hm : cacheGetArts c (queryCacheKey query lat lon) = none)
    (ha : env.analyze query = Except.ok A) :
    processNaturalLanguageQuery env c query lat lon =
      (let keywords := A.keywords.getD []
       let articles1 := if keywords.length > 0 then kwSearch env.db keywords else []
       let articles2 := if articles1.length = 0 then findBySearchQuery env query 1 5 else articles1
       if articles2.length = 0 then (Except.ok [], c, 0)
       else
         (Except.ok (enrichAll env (articles2.map formatArticle) c).1,
           cacheSet (enrichAll env (articles2.map formatArticle) c).2.1
             (queryCacheKey query lat lon)
             (CVal.arts (enrichAll env (articles2.map formatArticle) c).1) 3600,
           (enrichAll env (articles2.map formatArticle) c).2.2)) := by
  unfold processNaturalLanguageQuery
  rw [hm, ha]

/-- When the keyword search and the full-text fallback are both empty, the
pipeline answers with the empty list, leaves the cache untouched and makes
no summarization call. -/
theorem processQuery_no_results (env : QueryEnv) (c : CacheState) (query : String)
    (lat lon : Option ℚ) (A : Analysis)
    (hmiss : cacheGetArts c (queryCacheKey query lat lon) = none)
    (han : env.analyze query = Except.ok A)
    (hkw : kwSearch env.db (A.keywords.getD []) = [])
    (hfts : findBySearchQuery env query 1 5 = []) :
    processNaturalLanguageQuery env c query lat lon = (Except.ok [], c, 0) := by
  unfold processNaturalLanguageQuery
  simp [hmiss, han, hkw, hfts]

/-- C6: under the invariant that every cached article list holds at most 5
articles, the pipeline returns at most 5 articles on every outcome of the
analysis, preserves the invariant, and submits at most 5 articles for
summarization. -/
theorem c6_pipeline_caps_at_five (env : QueryEnv) (c : CacheState) (query : String)
    (lat lon : Option ℚ) (hwf : cacheWF c) :
    (∀ l, (processNaturalLanguageQuery env c query lat lon).1 = Except.ok l → l.length ≤ 5)
    ∧ cacheWF (processNaturalLanguageQuery env c query lat lon).2.1
    ∧ (processNaturalLanguageQuery env c query lat lon).2.2 ≤ 5 := by
  cases hm : cacheGetArts c (queryCacheKey query lat lon) with
  | some l0 =>
    rw [pnlq_hit env c query lat lon l0 hm]
    refine ⟨?_, hwf, by simp⟩
    intro l hl
    simp only [Except.ok.injEq] at hl
    subst hl
    exact cacheGetArts_le_five c _ _ hwf hm
  | none =>
    cases ha : env.analyze query with
    | error e =>
      rw [pnlq_analyze_fail env c query lat lon hm ha]
      refine ⟨?_, hwf, by simp⟩
      intro l hl
      simp at hl
    | ok A =>
      rw [pnlq_resolved env c query lat lon A hm ha]
      simp only []
      set kws := A.keywords.getD [] with hk
      set a1 := if kws.length > 0 then kwSearch env.db kws else [] with h1
      set a2 := if a1.length = 0 then findBySearchQuery env query 1 5 else a1 with h2
      have ha2 : a2.length ≤ 5 := by
        rw [h2]
        split
        · exact findBySearchQuery_length_le env query 1 5
        · rw [h1]
          split
          · exact kwSearch_length_le _ _
          · simp
      by_cases hz : a2.length = 0
      · rw [if_pos hz]
        refine ⟨?_, hwf, by simp⟩
        intro l hl
        simp only [Except.ok.injEq] at hl
        subst hl
        simp
      · rw [if_neg hz]
        have hlen : (enrichAll env (a2.map formatArticle) c).1.length ≤ 5 := by
          rw [enrichAll_length]
          simpa using ha2
        refine ⟨?_, ?_, ?_⟩
        · intro l hl
          simp only [Except.ok.injEq] at hl
          subst hl
          exact hlen
        · exact cacheWF_cacheSet_arts _ _ _ _ (enrichAll_wf env _ c hwf) hlen
        · calc (enrichAll env (a2.map formatArticle) c).2.2
              ≤ (a2.map formatArticle).length := enrichAll_calls_le env _ c
            _ = a2.length := by simp
            _ ≤ 5 := ha2

/-- Witness for C6 at the empty cache and the keywordless environment. -/
theorem c6_pipeline_caps_at_five_witness :
    cacheWF cache0
    ∧ ((∀ l, (processNaturalLanguageQuery envEmpty cache0 ("q") none none).1 = Except.ok l →
          l.length ≤ 5)
      ∧ cacheWF (processNaturalLanguageQuery envEmpty cache0 ("q") none none).2.1
      ∧ (processNaturalLanguageQuery envEmpty cache0 ("q") none none).2.2 ≤ 5) :=
  ⟨by simp [cacheWF, cache0],
    c6_pipeline_caps_at_five envEmpty cache0 ("q") none none (by simp [cacheWF, cache0])⟩

/-- C7: when the keyword search yields nothing (also when no keywords were
extracted) and the full-text fallback on the raw query yields nothing, the
pipeline returns the empty result and raises no error. -/
theorem c7_zero_matches_empty_not_error (env : QueryEnv) (c : CacheState) (query : String)
    (lat lon : Option ℚ) (A : Analysis)
    (hmiss : cacheGetArts c (queryCacheKey query lat lon) = none)
    (han : env.analyze query = Except.ok A)
    (hkw : kwSearch env.db (A.keywords.getD []) = [])
    (hfts : findBySearchQuery env query 1 5 = []) :
    (processNaturalLanguageQuery env c query lat lon).1 = Except.ok [] := by
  rw [processQuery_no_results env c query lat lon A hmiss han hkw hfts]

/-- Witness for C7 at the keywordless environment with empty stores. -/
theorem c7_zero_matches_empty_not_error_witness :
    (cacheGetArts cache0 (queryCacheKey ("q") none none) = none
      ∧ envEmpty.analyze ("q") = Except.ok emptyAnalysis
      ∧ kwSearch envEmpty.db (emptyAnalysis.keywords.getD []) = []
      ∧ findBySearchQuery envEmpty ("q") 1 5 = [])
    ∧ (processNaturalLanguageQuery envEmpty cache0 ("q") none none).1 = Except.ok [] :=
  ⟨⟨rfl, rfl, by simp [kwSearch, envEmpty, emptyAnalysis], rfl⟩,
    c7_zero_matches_empty_not_error envEmpty cache0 ("q") none none emptyAnalysis rfl rfl
      (by simp [kwSearch, envEmpty, emptyAnalysis]) rfl⟩

/-- Counterexample to C5 as stated: a query resolving to zero articles
returns the empty set, yet the fingerprint key is NOT cached afterwards —
the claimed cached empty entry is absent. -/
theorem c5_counterexample_empty_result_not_cached :
    (processNaturalLanguageQuery envEmpty cache0 ("q") none none).1 = Except.ok []
    ∧ ¬ (cacheGetArts (processNaturalLanguageQuery envEmpty cache0 ("q") none none).2.1
        (queryCacheKey ("q") none none) = some []) := by
  have hkw : kwSearch envEmpty.db (emptyAnalysis.keywords.getD []) = [] := by
    simp [kwSearch, envEmpty, emptyAnalysis]
  have h := processQuery_no_results envEmpty cache0 ("q") none none emptyAnalysis
    rfl rfl hkw rfl
  rw [h]
  exact ⟨rfl, by simp [cacheGetArts, cacheGet, cache0]⟩

/-- C5 as amended: an empty-but-resolved result is returned without being
cached — the cache is left unchanged, so the fingerprint key stays absent
and a later identical query is recomputed rather than served. -/
theorem c5_amended_empty_not_cached (env : QueryEnv) (c : CacheState) (query : String)
    (lat lon : Option ℚ) (A : Analysis)
    (hmiss : cacheGetArts c (queryCacheKey query lat lon) = none)
    (han : env.analyze query = Except.ok A)
    (hkw : kwSearch env.db (A.keywords.getD []) = [])
    (hfts : findBySearchQuery env query 1 5 = []) :
    (processNaturalLanguageQuery env c query lat lon).2.1 = c
    ∧ cacheGetArts (processNaturalLanguageQuery env c query lat lon).2.1
        (queryCacheKey query lat lon) = none := by
  rw [processQuery_no_results env c query lat lon A hmiss han hkw hfts]
  exact ⟨rfl, hmiss⟩

/-- Witness for the amended C5 at the keywordless environment. -/
theorem c5_amended_empty_not_cached_witness :
    (cacheGetArts cache0 (queryCacheKey ("q2") none none) = none
      ∧ envEmpty.analyze ("q2") = Except.ok emptyAnalysis
      ∧ kwSearch envEmpty.db (emptyAnalysis.keywords.getD []) = []
      ∧ findBySearchQuery envEmpty ("q2") 1 5 = [])
    ∧ ((processNaturalLanguageQuery envEmpty cache0 ("q2") none none).2.1 = cache0
      ∧ cacheGetArts (processNaturalLanguageQuery envEmpty cache0 ("q2") none none).2.1
          (queryCacheKey ("q2") none none) = none) :=
  ⟨⟨rfl, rfl, by simp [kwSearch, envEmpty, emptyAnalysis], rfl⟩,
    c5_amended_empty_not_cached envEmpty cache0 ("q2") none none emptyAnalysis rfl rfl
      (by simp [kwSearch, envEmpty, emptyAnalysis]) rfl⟩

/-- C10: a failed summarization writes the placeholder to the summary cache
with the 86400-second TTL, a cache holding the placeholder serves it with
no summarization call, and a cached empty summary string is treated as a
miss and triggers a summarization call. -/
theorem c10_placeholder_cached_and_empty_is_miss (env : QueryEnv) (c : CacheState)
    (fa : FormattedArticle)
    (hmiss : cacheGetStr c ("summary:" ++ fa.id) = none)
    (hfail : env.summarize fa.description = Except.error ()) :
    enrichOne env c fa = (⟨fa, "Summary not available."⟩,
        cacheSet c ("summary:" ++ fa.id) (CVal.str ("Summary not available.")) 86400, 1)
    ∧ cacheGetStr (enrichOne env c fa).2.1 ("summary:" ++ fa.id)
        = some ("Summary not available.")
    ∧ (∀ c2, cacheGetStr c2 ("summary:" ++ fa.id) = some ("Summary not available.") →
        enrichOne env c2 fa = (⟨fa, "Summary not available."⟩, c2, 0))
    ∧ (∀ c3, cacheGetStr c3 ("summary:" ++ fa.id) = some ("") →
        (enrichOne env c3 fa).2.2 = 1) := by
  have hsum : summarizeText env fa.description = "Summary not available." := by
    simp [summarizeText, hfail]
  have h1 : enrichOne env c fa = (⟨fa, "Summary not available."⟩,
      cacheSet c ("summary:" ++ fa.id) (CVal.str ("Summary not available.")) 86400, 1) := by
    simp [enrichOne, hmiss, hsum]
  refine ⟨h1, ?_, ?_, ?_⟩
  · rw [h1]
    exact cacheGetStr_cacheSet c ("summary:" ++ fa.id) ("Summary not available.") 86400
  · intro c2 h2
    simp [enrichOne, h2]
  · intro c3 h3
    simp [enrichOne, h3]

/-- Witness for C10 at the empty cache and a failing summarizer. -/
theorem c10_placeholder_cached_and_empty_is_miss_witness :
    (cacheGetStr cache0 ("summary:" ++ sampleFA.id) = none
      ∧ envFailSum.summarize sampleFA.description = Except.error ())
    ∧ enrichOne envFailSum cache0 sampleFA = (⟨sampleFA, "Summary not available."⟩,
        cacheSet cache0 ("summary:" ++ sampleFA.id) (CVal.str ("Summary not available.")) 86400, 1) :=
  ⟨⟨rfl, rfl⟩,
    (c10_placeholder_cached_and_empty_is_miss envFailSum cache0 sampleFA rfl rfl).1⟩

/-- In a list whose projections are distinct, exactly one element projects
to the projection of a member. -/
theorem countP_map_proj_eq_one {α : Type} (f : α → String) (l : List α) (a : α)
    (h : (l.map f).Nodup) (ha : a ∈ l) :
    l.countP (fun x => f x == f a) = 1 := by
  induction l with
  | nil => cases ha
  | cons b t ih =>
    rw [List.map_cons, List.nodup_cons] at h
    rcases List.mem_cons.mp ha with rfl | hat
    · rw [List.countP_cons]
      have ht : t.countP (fun x => f x == f a) = 0 := by
        rw [List.countP_eq_zero]
        intro x hx
        simp only [beq_iff_eq]
        intro hfx
        exact h.1 (hfx ▸ List.mem_map_of_mem f hx)
      simp [ht]
    · rw [List.countP_cons]
      have hba : (f b == f a) = false := by
        simp only [beq_eq_false_iff_ne, ne_eq]
        intro hfb
        exact h.1 (hfb ▸ List.mem_map_of_mem f hat)
      rw [ih h.2 hat]
      simp [hba]

/-- The trending_score column computed by the view equals the weighted
decayed sum the specification words describe: same window, click weight 1.5
against 1.0, and decay exp(-age_seconds / 43200). -/
theorem trendingScore_eq_specTrendingScore (now : ℚ) (evs : List UserEvent) (aid : String) :
    trendingScore now evs aid = specTrendingScore now evs aid := by
  unfold trendingScore specTrendingScore articleEvents
  have hfilter : ∀ e ∈ evs, (e.articleId == aid && inWindow now e)
      = (e.articleId == aid && decide (now - e.createdAt < 86400)) := by
    intro e _
    unfold inWindow
    congr 1
    rw [decide_eq_decide]
    constructor <;> intro h <;> linarith
  rw [List.filter_congr hfilter]
  refine congrArg List.sum (List.map_congr_left ?_)
  intro e he
  unfold eventWeight
  norm_num

/-- C1: with distinct article ids (the primary key), the derived
TrendingArticles set holds exactly one row per article; that row's score is
the weighted decayed 24-hour sum of the specification; and an article with
no recent events scores 0 while still being present. -/
theorem c1_trending_view_one_row_per_article (now : ℚ) (arts : List Article)
    (evs : List UserEvent) (a : Article)
    (hids : (arts.map Article.id).Nodup) (ha : a ∈ arts) :
    (TrendingArticles now arts evs).countP (fun r => r.article.id == a.id) = 1
    ∧ (∀ r ∈ TrendingArticles now arts evs, r.article.id = a.id →
        r.trending_score = specTrendingScore now evs a.id)
    ∧ (articleEvents now evs a.id = [] → trendingScore now evs a.id = 0) := by
  refine ⟨?_, ?_, ?_⟩
  · unfold TrendingArticles
    rw [List.countP_map]
    exact countP_map_proj_eq_one Article.id arts a hids ha
  · intro r hr hrid
    unfold TrendingArticles at hr
    rcases List.mem_map.mp hr with ⟨a2, _, rfl⟩
    simp only at hrid ⊢
    rw [hrid, trendingScore_eq_specTrendingScore]
  · intro h
    unfold trendingScore
    rw [h]
    simp

/-- Witness for C1 at a one-article table with no events. -/
theorem c1_trending_view_one_row_per_article_witness :
    (([sampleArticle].map Article.id).Nodup ∧ sampleArticle ∈ [sampleArticle])
    ∧ ((TrendingArticles 86400 [sampleArticle] []).countP
          (fun r => r.article.id == sampleArticle.id) = 1
      ∧ (∀ r ∈ TrendingArticles 86400 [sampleArticle] [], r.article.id = sampleArticle.id →
          r.trending_score = specTrendingScore 86400 [] sampleArticle.id)
      ∧ (articleEvents 86400 [] sampleArticle.id = [] →
          trendingScore 86400 [] sampleArticle.id = 0)) :=
  ⟨⟨by simp, by simp⟩,
    c1_trending_view_one_row_per_article 86400 [sampleArticle] [] sampleArticle
      (by simp) (by simp)⟩

/-- First-order lower bound for the exponential at a negated argument. -/
theorem one_sub_le_exp_neg (x : ℝ) : 1 - x ≤ Real.exp (-x) := by
  have h := Real.add_one_le_exp (-x)
  linarith

/-- Reciprocal upper bound for the exponential at a negated argument. -/
theorem exp_neg_le_inv_one_add (x : ℝ) (hx : 0 ≤ x) : Real.exp (-x) ≤ (1 + x)⁻¹ := by
  rw [Real.exp_neg]
  have h1 : (0 : ℝ) < 1 + x := by linarith
  have h2 : 1 + x ≤ Real.exp x := by
    have h3 := Real.add_one_le_exp x
    linarith
  exact inv_anti₀ h1 h2

/-- The five-click decayed sum lies strictly between 7.03 and 7.09. -/
theorem fiveClickSum_bounds :
    7.03 < 1.5 * (Real.exp (-(300/43200 : ℝ)) + Real.exp (-(600/43200)) + Real.exp (-(1800/43200))
      + Real.exp (-(3600/43200)) + Real.exp (-(7200/43200)))
    ∧ 1.5 * (Real.exp (-(300/43200 : ℝ)) + Real.exp (-(600/43200)) + Real.exp (-(1800/43200))
      + Real.exp (-(3600/43200)) + Real.exp (-(7200/43200))) < 7.09 := by
  have l1 := one_sub_le_exp_neg ((300 : ℝ)/43200)
  have l2 := one_sub_le_exp_neg ((600 : ℝ)/43200)
  have l3 := one_sub_le_exp_neg ((1800 : ℝ)/43200)
  have l4 := one_sub_le_exp_neg ((3600 : ℝ)/43200)
  have l5 := one_sub_le_exp_neg ((7200 : ℝ)/43200)
  have u1 := exp_neg_le_inv_one_add ((300 : ℝ)/43200) (by norm_num)
  have u2 := exp_neg_le_inv_one_add ((600 : ℝ)/43200) (by norm_num)
  have u3 := exp_neg_le_inv_one_add ((1800 : ℝ)/43200) (by norm_num)
  have u4 := exp_neg_le_inv_one_add ((3600 : ℝ)/43200) (by norm_num)
  have u5 := exp_neg_le_inv_one_add ((7200 : ℝ)/43200) (by norm_num)
  norm_num at l1 l2 l3 l4 l5 u1 u2 u3 u4 u5 ⊢
  constructor <;> nlinarith [l1, l2, l3, l4, l5, u1, u2, u3, u4, u5]

/-- The trending score of the five-click scenario, expressed exactly as the
claimed closed formula. -/
theorem fiveClick_score_eq :
    trendingScore 86400 fiveClickEvents ("a1") =
      1.5 * (Real.exp (-(300/43200 : ℝ)) + Real.exp (-(600/43200)) + Real.exp (-(1800/43200))
        + Real.exp (-(3600/43200)) + Real.exp (-(7200/43200))) := by
  have hev : articleEvents 86400 fiveClickEvents ("a1") = fiveClickEvents := by
    unfold articleEvents fiveClickEvents clickEventAt inWindow
    norm_num [List.filter]
  unfold trendingScore
  rw [hev]
  unfold fiveClickEvents clickEventAt
  simp only [List.map_cons, List.map_nil, List.sum_cons, List.sum_nil, eventWeight]
  norm_num
  ring_nf

/-- Counterexample to C3 as stated: the five-click trending score differs
from 7.19 by more than 0.1, so the value is not approximately 7.19. -/
theorem c3_counterexample_not_near_7_19 :
    0.1 < |trendingScore 86400 fiveClickEvents ("a1") - 7.19| := by
  rw [fiveClick_score_eq]
  have hub := fiveClickSum_bounds.2
  rw [abs_of_neg (by linarith)]
  linarith

/-- C3 as amended: the five-click trending score equals the claimed closed
formula 1.5 times the sum of the five decay factors, and its value is
approximately 7.06 (within 0.03), not 7.19. -/
theorem c3_amended_five_click_score :
    trendingScore 86400 fiveClickEvents ("a1") =
      1.5 * (Real.exp (-(300/43200 : ℝ)) + Real.exp (-(600/43200)) + Real.exp (-(1800/43200))
        + Real.exp (-(3600/43200)) + Real.exp (-(7200/43200)))
    ∧ |trendingScore 86400 fiveClickEvents ("a1") - 7.06| < 0.03 := by
  refine ⟨fiveClick_score_eq, ?_⟩
  rw [fiveClick_score_eq, abs_lt]
  have hlb := fiveClickSum_bounds.1
  have hub := fiveClickSum_bounds.2
  constructor <;> linarith
